import Mathlib

/-!
# EmuFlight `src/main/flight/pid.h`: verification development

The header declares the PID controller's constants, enumerations, the persisted
profile structure `pidProfile_t`, the runtime aggregate `pidRuntime_t` and the
prototypes of the controller's entry points.  The bodies of the entry points live
in `pid.c`, which is not part of the sources at hand; every definition that stands
for such a body is marked `Modelled from the spec:`.

Conventions of the embedding:
* C `#define` integer constants are `Nat` definitions of the same name;
* C decimal `float` literals are the exact rationals they denote in decimal;
* a C `enum` is an inductive type with a `val` function giving each enumerator
  the integer the C rules assign (first enumerator `0` unless written, each
  following enumerator one more than its predecessor);
* `float` quantities of the control loop are exact rationals.
-/

namespace Pid

/-! ## Constants (pid.h lines 33-59) -/

def MAX_PID_PROCESS_DENOM : Nat := 16
def PID_CONTROLLER_BETAFLIGHT : Nat := 1
def PIDSUM_LIMIT : Nat := 500
def PIDSUM_LIMIT_YAW : Nat := 400
def PIDSUM_LIMIT_MIN : Nat := 100
def PIDSUM_LIMIT_MAX : Nat := 1000

def PTERM_SCALE : ℚ := 0.032029
def ITERM_SCALE : ℚ := 0.244381
def DTERM_SCALE : ℚ := 0.000529
def FEEDFORWARD_SCALE : ℚ := 0.013754

def ITERM_RELAX_CUTOFF_DEFAULT : Nat := 15

def ITERM_ACCELERATOR_GAIN_OFF : Nat := 0
def ITERM_ACCELERATOR_GAIN_MAX : Nat := 30000

def MAX_PROFILE_NAME_LENGTH : Nat := 8

/-! ## Enumerations (pid.h lines 60-119) -/

inductive pidIndex_e where
  | PID_ROLL
  | PID_PITCH
  | PID_YAW
  | PID_LEVEL_LOW
  | PID_LEVEL_HIGH
  | PID_MAG
  | PID_ITEM_COUNT
  deriving DecidableEq

def pidIndex_e.val : pidIndex_e → Nat
  | .PID_ROLL => 0
  | .PID_PITCH => 1
  | .PID_YAW => 2
  | .PID_LEVEL_LOW => 3
  | .PID_LEVEL_HIGH => 4
  | .PID_MAG => 5
  | .PID_ITEM_COUNT => 6

inductive pidStabilisationState_e where
  | PID_STABILISATION_OFF
  | PID_STABILISATION_ON
  deriving DecidableEq

def pidStabilisationState_e.val : pidStabilisationState_e → Nat
  | .PID_STABILISATION_OFF => 0
  | .PID_STABILISATION_ON => 1

inductive antiGravityMode_e where
  | ANTI_GRAVITY_SMOOTH
  | ANTI_GRAVITY_STEP
  deriving DecidableEq

def antiGravityMode_e.val : antiGravityMode_e → Nat
  | .ANTI_GRAVITY_SMOOTH => 0
  | .ANTI_GRAVITY_STEP => 1

inductive itermRelax_e where
  | ITERM_RELAX_OFF
  | ITERM_RELAX_RP
  | ITERM_RELAX_RPY
  | ITERM_RELAX_RP_INC
  | ITERM_RELAX_RPY_INC
  | ITERM_RELAX_COUNT
  deriving DecidableEq

def itermRelax_e.val : itermRelax_e → Nat
  | .ITERM_RELAX_OFF => 0
  | .ITERM_RELAX_RP => 1
  | .ITERM_RELAX_RPY => 2
  | .ITERM_RELAX_RP_INC => 3
  | .ITERM_RELAX_RPY_INC => 4
  | .ITERM_RELAX_COUNT => 5

inductive itermRelaxType_e where
  | ITERM_RELAX_GYRO
  | ITERM_RELAX_SETPOINT
  | ITERM_RELAX_TYPE_COUNT
  deriving DecidableEq

def itermRelaxType_e.val : itermRelaxType_e → Nat
  | .ITERM_RELAX_GYRO => 0
  | .ITERM_RELAX_SETPOINT => 1
  | .ITERM_RELAX_TYPE_COUNT => 2

/-- All enumerators of `itermRelaxType_e`, in declaration order. -/
def itermRelaxType_e.all : List itermRelaxType_e :=
  [.ITERM_RELAX_GYRO, .ITERM_RELAX_SETPOINT, .ITERM_RELAX_TYPE_COUNT]

/-- The selectable trigger types: the enumerators below the `_COUNT` sentinel. -/
def itermRelaxType_e.selectable : List itermRelaxType_e :=
  itermRelaxType_e.all.filter
    (fun t => decide (t.val < itermRelaxType_e.ITERM_RELAX_TYPE_COUNT.val))

/-- All enumerators of `itermRelax_e`, in declaration order. -/
def itermRelax_e.all : List itermRelax_e :=
  [.ITERM_RELAX_OFF, .ITERM_RELAX_RP, .ITERM_RELAX_RPY, .ITERM_RELAX_RP_INC,
   .ITERM_RELAX_RPY_INC, .ITERM_RELAX_COUNT]

/-- The selectable relax modes: the enumerators below the `_COUNT` sentinel. -/
def itermRelax_e.selectable : List itermRelax_e :=
  itermRelax_e.all.filter (fun t => decide (t.val < itermRelax_e.ITERM_RELAX_COUNT.val))

/-! ## Data model: C types of the persisted structures (pid.h lines 86-91, 123-220) -/

/-- Modelled from the spec: `XYZ_AXIS_COUNT` comes from `common/axis.h`, which is
not among the sources; the spec names three axes (roll, pitch, yaw), and the
header itself declares `pidData[3]`. -/
def XYZ_AXIS_COUNT : Nat := 3

/-- The C types that occur in `pidf_t` and `pidProfile_t`. -/
inductive CType where
  | uint8_t
  | uint16_t
  | int8_t
  | char
  | pidf_t
  | array (elem : CType) (len : Nat)
  deriving DecidableEq

/-- A member declaration of a C structure: its name and its type. -/
structure Member where
  name : String
  type : CType
  deriving DecidableEq

/-- Members of `struct pidf_s`, in declaration order. -/
def pidf_s : List Member :=
  [Member.mk "P" .uint8_t, Member.mk "I" .uint8_t, Member.mk "D" .uint8_t,
   Member.mk "F" .uint16_t]

/-- Members of `struct pidProfile_s`, in declaration order. -/
def pidProfile_s : List Member := [
  Member.mk "yaw_lowpass_hz" .uint16_t,
  Member.mk "dterm_lowpass_hz" .uint16_t,
  Member.mk "dterm_notch_hz" .uint16_t,
  Member.mk "dterm_notch_cutoff" .uint16_t,
  Member.mk "pid" (.array .pidf_t pidIndex_e.PID_ITEM_COUNT.val),
  Member.mk "dterm_filter_type" .uint8_t,
  Member.mk "itermWindupPointPercent" .uint8_t,
  Member.mk "pidSumLimit" .uint16_t,
  Member.mk "pidSumLimitYaw" .uint16_t,
  Member.mk "pidAtMinThrottle" .uint8_t,
  Member.mk "levelAngleLimit" .uint8_t,
  Member.mk "angleExpo" .uint8_t,
  Member.mk "horizonTransition" .uint8_t,
  Member.mk "horizonGain" .uint8_t,
  Member.mk "racemode_tilt_effect" .uint8_t,
  Member.mk "racemode_horizon" .uint8_t,
  Member.mk "antiGravityMode" .uint8_t,
  Member.mk "itermThrottleThreshold" .uint16_t,
  Member.mk "itermAcceleratorGain" .uint16_t,
  Member.mk "yawRateAccelLimit" .uint16_t,
  Member.mk "rateAccelLimit" .uint16_t,
  Member.mk "crash_dthreshold" .uint16_t,
  Member.mk "crash_gthreshold" .uint16_t,
  Member.mk "crash_setpoint_threshold" .uint16_t,
  Member.mk "crash_recovery" .uint8_t,
  Member.mk "feedForwardTransition" .uint8_t,
  Member.mk "itermLimit" .uint16_t,
  Member.mk "dterm_lowpass2_hz" .uint16_t,
  Member.mk "throttle_boost" .uint8_t,
  Member.mk "throttle_boost_cutoff" .uint8_t,
  Member.mk "iterm_rotation" .uint8_t,
  Member.mk "iterm_relax_type" .uint8_t,
  Member.mk "iterm_relax_cutoff" .uint8_t,
  Member.mk "iterm_relax" .uint8_t,
  Member.mk "dterm_filter2_type" .uint8_t,
  Member.mk "dyn_lpf_dterm_min_hz" .uint16_t,
  Member.mk "dyn_lpf_dterm_max_hz" .uint16_t,
  Member.mk "launchControlMode" .uint8_t,
  Member.mk "launchControlThrottlePercent" .uint8_t,
  Member.mk "launchControlAngleLimit" .uint8_t,
  Member.mk "launchControlGain" .uint8_t,
  Member.mk "launchControlAllowTriggerReset" .uint8_t,
  Member.mk "thrustLinearization" .uint8_t,
  Member.mk "d_min" (.array .uint8_t XYZ_AXIS_COUNT),
  Member.mk "d_min_gain" .uint8_t,
  Member.mk "d_min_advance" .uint8_t,
  Member.mk "motor_output_limit" .uint8_t,
  Member.mk "auto_profile_cell_count" .int8_t,
  Member.mk "ff_boost" .uint8_t,
  Member.mk "profileName" (.array .char (MAX_PROFILE_NAME_LENGTH + 1)),
  Member.mk "idle_min_rpm" .uint8_t,
  Member.mk "idle_adjustment_speed" .uint8_t,
  Member.mk "idle_p" .uint8_t,
  Member.mk "idle_pid_limit" .uint8_t,
  Member.mk "idle_max_increase" .uint8_t,
  Member.mk "ff_interpolate_sp" .uint8_t,
  Member.mk "ff_max_rate_limit" .uint8_t,
  Member.mk "ff_smooth_factor" .uint8_t,
  Member.mk "dyn_lpf_curve_expo" .uint8_t,
  Member.mk "nfe_racemode" .uint8_t,
  Member.mk "vbat_sag_compensation" .uint8_t,
  Member.mk "dtermDynNotchQ" .uint16_t,
  Member.mk "dterm_dyn_notch_min_hz" .uint16_t,
  Member.mk "dterm_dyn_notch_max_hz" .uint16_t,
  Member.mk "dterm_dyn_notch_location" .uint8_t,
  Member.mk "dterm_dynlpf2_fmin" .uint16_t,
  Member.mk "dterm_dynlpf2_fmax" .uint16_t,
  Member.mk "dterm_dynlpf2_gain" .uint16_t,
  Member.mk "dterm_dynlpf2_fc_fc" .uint16_t,
  Member.mk "dterm_dynlpf2_center_threshold" .uint16_t,
  Member.mk "dterm_dynlpf2_throttle_threshold" .uint16_t,
  Member.mk "dterm_dynlpf2_throttle_gain" .uint16_t,
  Member.mk "dterm_dynlpf2_enable" .uint8_t,
  Member.mk "dterm_dynlpf2_type" .uint8_t,
  Member.mk "dterm_dynlpf2_debug" .uint8_t,
  Member.mk "dtermMeasurementSlider" .uint8_t,
  Member.mk "emuBoostPR" .uint16_t,
  Member.mk "emuBoostY" .uint16_t,
  Member.mk "emuBoostLimitPR" .uint8_t,
  Member.mk "emuBoostLimitY" .uint8_t,
  Member.mk "dtermBoost" .uint16_t,
  Member.mk "dtermBoostLimit" .uint8_t,
  Member.mk "i_decay" .uint8_t,
  Member.mk "i_decay_cutoff" .uint8_t]

/-- Width in bits of the exact-width integer types of `<stdint.h>`; `none` for a
type that is not one of them. -/
def CType.bits : CType → Option Nat
  | .uint8_t => some 8
  | .uint16_t => some 16
  | .int8_t => some 8
  | _ => none

/-- Signedness of the exact-width integer types (`intN_t` is signed, `uintN_t`
is not). -/
def CType.isSigned : CType → Bool
  | .int8_t => true
  | _ => false

/-- An exact-width integer type. -/
def CType.isInteger (t : CType) : Bool := t.bits.isSome

/-- Smallest value of an exact-width integer type: `0` when unsigned,
`-2^(w-1)` when signed (two's complement, as `<stdint.h>` requires). -/
def CType.minValue (t : CType) : Option Int :=
  t.bits.map (fun w => if t.isSigned then -((2 : Int) ^ (w - 1)) else 0)

/-- Largest value of an exact-width integer type: `2^w - 1` when unsigned,
`2^(w-1) - 1` when signed. -/
def CType.maxValue (t : CType) : Option Int :=
  t.bits.map (fun w => if t.isSigned then (2 : Int) ^ (w - 1) - 1 else (2 : Int) ^ w - 1)

/-- The scalar types a member is made of: a struct contributes the scalar types
of its members, an array those of its element type. -/
def CType.leaves : CType → List CType
  | .pidf_t => pidf_s.map Member.type
  | .array e _ => e.leaves
  | t => [t]

/-- Names of the members of a structure with a scalar component satisfying `p`. -/
def membersWith (s : List Member) (p : CType → Bool) : List String :=
  (s.filter (fun m => m.type.leaves.any p)).map Member.name

/-- Length of an array member of a structure, by name. -/
def arrayLength (s : List Member) (name : String) : Option Nat :=
  match (s.find? (fun m => m.name == name)).map Member.type with
  | some (.array _ n) => some n
  | _ => none

/-! ## Runtime data (pid.h lines 236-243, 257-364, 370) -/

/-- `pidAxisData_t`: the output of a tick for one axis. -/
structure pidAxisData_t where
  P : ℚ
  I : ℚ
  D : ℚ
  F : ℚ
  Sum : ℚ
  deriving DecidableEq

/-- Number of elements of `pidData` (`extern pidAxisData_t pidData[3]`). -/
def PID_DATA_LEN : Nat := 3

/-- The members of `pidProfile_t` that the modelled operations read.  All are
`uint16_t` or `uint8_t` in the header and are held as naturals. -/
structure pidProfile_t where
  pidSumLimit : Nat
  pidSumLimitYaw : Nat
  pidAtMinThrottle : Nat
  antiGravityMode : Nat
  itermThrottleThreshold : Nat
  itermAcceleratorGain : Nat

/-- The profile's members are within the range of their declared C type. -/
def pidProfile_t.inRange (p : pidProfile_t) : Prop :=
  p.pidSumLimit < 2 ^ 16 ∧ p.pidSumLimitYaw < 2 ^ 16 ∧ p.pidAtMinThrottle < 2 ^ 8 ∧
  p.antiGravityMode < 2 ^ 8 ∧ p.itermThrottleThreshold < 2 ^ 16 ∧
  p.itermAcceleratorGain < 2 ^ 16

instance (p : pidProfile_t) : Decidable p.inRange := by
  unfold pidProfile_t.inRange; infer_instance

/-- The members of `pidRuntime_t` that the modelled operations read or write. -/
structure pidRuntime_t where
  pidStabilisationEnabled : Bool
  antiGravityEnabled : Bool
  antiGravityMode : Nat
  antiGravityThrottleHpf : ℚ
  itermAccelerator : ℚ
  itermAcceleratorGain : Nat

/-- Modelled from the spec: the external inputs of one tick, §2 "gyro sample +
setpoint (external)": desired and measured rate per axis. -/
structure TickInput where
  setpoint : Fin PID_DATA_LEN → ℚ
  gyro : Fin PID_DATA_LEN → ℚ

/-! ## Operations whose bodies are in `pid.c` -/

/-- Modelled from the spec: the clipping used by the control loop ("clipped to
`pidSumLimit`", "clamped to `[ITERM_ACCELERATOR_GAIN_OFF,
ITERM_ACCELERATOR_GAIN_MAX]`"); the helper itself is declared outside pid.h. -/
def clip (x lo hi : ℚ) : ℚ :=
  if x < lo then lo else if x > hi then hi else x

/-- Modelled from the spec: the stage modules of §4.2 (P, I, D and F terms,
axis suppression, and the update of the filter state, which carries the
anti-gravity gain the stage arrives at before it is bounded).  Their bodies are
in `pid.c` and the spec does not fix their arithmetic, so each is an arbitrary
function of the profile, the runtime state, the tick's inputs and the axis. -/
structure StageModules where
  pTerm : pidProfile_t → pidRuntime_t → TickInput → Fin PID_DATA_LEN → ℚ
  iTerm : pidProfile_t → pidRuntime_t → TickInput → Fin PID_DATA_LEN → ℚ
  dTerm : pidProfile_t → pidRuntime_t → TickInput → Fin PID_DATA_LEN → ℚ
  fTerm : pidProfile_t → pidRuntime_t → TickInput → Fin PID_DATA_LEN → ℚ
  axisSuppressed : pidProfile_t → pidRuntime_t → TickInput → Fin PID_DATA_LEN → Bool
  nextRuntime : pidProfile_t → pidRuntime_t → TickInput → pidRuntime_t

/-- Modelled from the spec: `pidStabilisationState` (body in `pid.c`).  §3: the
stabilisation state is "a two-value flag (on/off)"; the setter records whether
the requested state is `PID_STABILISATION_ON`. -/
def pidStabilisationState (rt : pidRuntime_t)
    (pidControllerState : pidStabilisationState_e) : pidRuntime_t :=
  { rt with pidStabilisationEnabled :=
      decide (pidControllerState = .PID_STABILISATION_ON) }

/-- Modelled from the spec: the sum limit of an axis, §4.2 step 11: "clipped to
`pidSumLimit` (yaw uses its own, smaller, limit)". -/
def axisSumLimit (pidProfile : pidProfile_t) (axis : Fin PID_DATA_LEN) : ℚ :=
  if axis.val = pidIndex_e.PID_YAW.val then (pidProfile.pidSumLimitYaw : ℚ)
  else (pidProfile.pidSumLimit : ℚ)

/-- Modelled from the spec: the per-axis result of `pidController` (body in
`pid.c`).  §3 and §6: with stabilisation off "P/I/D/F are ... forced to zero";
§4.2 step 11: "Sum: `P + I + D + F`, clipped to `pidSumLimit` (yaw uses its own,
smaller, limit), unless stabilisation is off or the axis is suppressed ..., in
which case the sum is forced to zero". -/
def pidAxis (m : StageModules) (pidProfile : pidProfile_t) (rt : pidRuntime_t)
    (inp : TickInput) (axis : Fin PID_DATA_LEN) : pidAxisData_t :=
  if rt.pidStabilisationEnabled then
    let P := m.pTerm pidProfile rt inp axis
    let I := m.iTerm pidProfile rt inp axis
    let D := m.dTerm pidProfile rt inp axis
    let F := m.fTerm pidProfile rt inp axis
    let limit := axisSumLimit pidProfile axis
    { P := P, I := I, D := D, F := F,
      Sum := if m.axisSuppressed pidProfile rt inp axis then 0
             else clip (P + I + D + F) (-limit) limit }
  else
    { P := 0, I := 0, D := 0, F := 0, Sum := 0 }

/-- Modelled from the spec: the bounding of the anti-gravity gain (body in
`pid.c`).  §4.2 step 8: "gain is bounded to `[ITERM_ACCELERATOR_GAIN_OFF,
ITERM_ACCELERATOR_GAIN_MAX]`"; §8: "clamped to ... regardless of input
throttle-delta magnitude"; §7: "all sums and gains clamped". -/
def antiGravityGain (rawGain : ℚ) : ℚ :=
  clip rawGain (ITERM_ACCELERATOR_GAIN_OFF : ℚ) (ITERM_ACCELERATOR_GAIN_MAX : ℚ)

/-- Modelled from the spec: one tick of `pidController` (body in `pid.c`), §6
`runControlLoop(profile)`: "executes one full tick across all axes; side effect:
mutates Runtime State and Axis Output".  The result is the new runtime state
and the new contents of `pidData`.  In the new state the stabilisation flag is
kept (it is "independent of Runtime State's numeric fields"); the members that
coefficient derivation writes (`antiGravityMode`, `itermAcceleratorGain`) are
kept (§4.1: derivation runs "never during normal tick execution"); and the
anti-gravity gain that the stage modules arrive at is stored bounded (§4.2
step 8). -/
def pidController (m : StageModules) (pidProfile : pidProfile_t) (rt : pidRuntime_t)
    (inp : TickInput) : pidRuntime_t × (Fin PID_DATA_LEN → pidAxisData_t) :=
  ({ m.nextRuntime pidProfile rt inp with
       pidStabilisationEnabled := rt.pidStabilisationEnabled
       antiGravityMode := rt.antiGravityMode
       itermAcceleratorGain := rt.itermAcceleratorGain
       itermAccelerator := antiGravityGain (m.nextRuntime pidProfile rt inp).itermAccelerator },
   fun axis => pidAxis m pidProfile rt inp axis)

/-- Modelled from the spec: `pidSetItermAccelerator` (body in `pid.c`).  §6
`setIntegralAccumulatorGain(value)`: "externally overrides the anti-gravity
accelerator gain"; the gain it stores is the anti-gravity gain of §4.2 step 8
("gain is bounded to `[ITERM_ACCELERATOR_GAIN_OFF, ITERM_ACCELERATOR_GAIN_MAX]`")
and §7 ("all sums and gains clamped"). -/
def pidSetItermAccelerator (rt : pidRuntime_t) (newItermAccelerator : ℚ) : pidRuntime_t :=
  { rt with itermAccelerator := antiGravityGain newItermAccelerator }

/-- Modelled from the spec: `pidUpdateAntiGravityThrottleFilter` (body in
`pid.c`).  §4.2 step 8: the stage "detects rapid throttle changes via a
high-pass filter on throttle".  The filter's arithmetic is not given by the
spec and is the parameter `hpf`. -/
def pidUpdateAntiGravityThrottleFilter (hpf : pidRuntime_t → ℚ → ℚ) (rt : pidRuntime_t)
    (throttle : ℚ) : pidRuntime_t :=
  { rt with antiGravityThrottleHpf := hpf rt throttle }

/-- Modelled from the spec: `pidSetAntiGravityState` (body in `pid.c`), §6
`setAntiGravityActive(bool)`. -/
def pidSetAntiGravityState (rt : pidRuntime_t) (newState : Bool) : pidRuntime_t :=
  { rt with antiGravityEnabled := newState }

/-- Modelled from the spec: acceptance of a profile by the external
configuration layer.  §3: "all fields are within fixed-width integer ranges
validated by the external config layer; the core trusts them"; §7: it is that
layer's "responsibility to reject invalid Profile values before they reach
coefficient derivation".  For the anti-gravity gain the valid range is the
header's `[ITERM_ACCELERATOR_GAIN_OFF, ITERM_ACCELERATOR_GAIN_MAX]`. -/
def configAccepts (p : pidProfile_t) : Prop :=
  p.inRange ∧ ITERM_ACCELERATOR_GAIN_OFF ≤ p.itermAcceleratorGain ∧
  p.itermAcceleratorGain ≤ ITERM_ACCELERATOR_GAIN_MAX

instance (p : pidProfile_t) : Decidable (configAccepts p) := by
  unfold configAccepts; infer_instance

/-- Modelled from the spec: the part of coefficient derivation that sets up the
anti-gravity gain state.  §3: the runtime state, which contains the
"anti-gravity filters and gain state", is "initialized once from a Profile
(coefficient derivation)".  The runtime members `antiGravityMode` and
`itermAcceleratorGain` are taken over from the profile members of the same name
and type; the initial floating-point gain is a derived quantity whose formula
the spec does not give (parameter `derivedGain`) and which is stored bounded
(§3: the core "must clamp derived floating-point quantities"). -/
def antiGravityInit (derivedGain : pidProfile_t → ℚ) (pidProfile : pidProfile_t)
    (rt : pidRuntime_t) : pidRuntime_t :=
  { rt with
      antiGravityMode := pidProfile.antiGravityMode
      itermAcceleratorGain := pidProfile.itermAcceleratorGain
      itermAccelerator := antiGravityGain (derivedGain pidProfile) }

/-- The operations on the runtime state that the header declares and that can
follow coefficient derivation, each with its arguments. -/
inductive PidOp where
  | tick (m : StageModules) (inp : TickInput)
  | setItermAccelerator (newItermAccelerator : ℚ)
  | updateAntiGravityThrottleFilter (hpf : pidRuntime_t → ℚ → ℚ) (throttle : ℚ)
  | setAntiGravityState (newState : Bool)
  | stabilisationState (pidControllerState : pidStabilisationState_e)

/-- The runtime state after one operation. -/
def PidOp.apply (pidProfile : pidProfile_t) (rt : pidRuntime_t) : PidOp → pidRuntime_t
  | .tick m inp => (pidController m pidProfile rt inp).1
  | .setItermAccelerator v => pidSetItermAccelerator rt v
  | .updateAntiGravityThrottleFilter hpf throttle =>
      pidUpdateAntiGravityThrottleFilter hpf rt throttle
  | .setAntiGravityState b => pidSetAntiGravityState rt b
  | .stabilisationState st => pidStabilisationState rt st

/-- The runtime state after a sequence of operations, first to last. -/
def runOps (pidProfile : pidProfile_t) (rt : pidRuntime_t) (ops : List PidOp) : pidRuntime_t :=
  ops.foldl (PidOp.apply pidProfile) rt

/-! ## Coefficient derivation (pid.h lines 42-49, 86-91, 250-255) -/

/-- Values of `pidf_t`: `P`, `I`, `D` (`uint8_t`) and `F` (`uint16_t`), held as
naturals. -/
structure pidf_t where
  P : Nat
  I : Nat
  D : Nat
  F : Nat
  deriving DecidableEq

/-- `pidCoefficient_t`: the working gains of one axis. -/
structure pidCoefficient_t where
  Kp : ℚ
  Ki : ℚ
  Kd : ℚ
  Kf : ℚ
  deriving DecidableEq

/-- Modelled from the spec: coefficient derivation for one set of gains (its
body is not in pid.h).  §4.1: "Converts integer gain fields to floating point
via fixed scale constants (P/I/D each have a distinct scale; feed-forward has
its own scale)"; §8 gives the P case as `Kp=0.032029*30`. -/
def pidCoefficientOf (g : pidf_t) : pidCoefficient_t :=
  { Kp := PTERM_SCALE * (g.P : ℚ)
    Ki := ITERM_SCALE * (g.I : ℚ)
    Kd := DTERM_SCALE * (g.D : ℚ)
    Kf := FEEDFORWARD_SCALE * (g.F : ℚ) }

/-- The slot of `pidProfile_t.pid` that belongs to an axis: the one of the same
index (`PID_ROLL`, `PID_PITCH`, `PID_YAW` are 0, 1, 2). -/
def axisSlot (axis : Fin XYZ_AXIS_COUNT) : Fin pidIndex_e.PID_ITEM_COUNT.val :=
  Fin.castLE (by decide) axis

/-- Modelled from the spec: coefficient derivation of the per-axis coefficient
set `pidRuntime.pidCoefficient[XYZ_AXIS_COUNT]` from the profile's
`pid[PID_ITEM_COUNT]`.  §3: "Coefficient Set: per-axis `{Kp, Ki, Kd, Kf}`
floating-point gains, derived from Profile scale constants". -/
def coefficientDerivation (pid : Fin pidIndex_e.PID_ITEM_COUNT.val → pidf_t)
    (axis : Fin XYZ_AXIS_COUNT) : pidCoefficient_t :=
  pidCoefficientOf (pid (axisSlot axis))

/-- Index of the roll axis in `pidData`. -/
def rollAxis : Fin PID_DATA_LEN := ⟨pidIndex_e.PID_ROLL.val, by decide⟩

/-- Index of the pitch axis in `pidData`. -/
def pitchAxis : Fin PID_DATA_LEN := ⟨pidIndex_e.PID_PITCH.val, by decide⟩

/-- Index of the yaw axis in `pidData`. -/
def yawAxis : Fin PID_DATA_LEN := ⟨pidIndex_e.PID_YAW.val, by decide⟩

/-- A profile whose members are all within their C types and whose
`itermAcceleratorGain` is the largest `uint16_t`. -/
def profileGainUint16Max : pidProfile_t :=
  { pidSumLimit := PIDSUM_LIMIT, pidSumLimitYaw := PIDSUM_LIMIT_YAW, pidAtMinThrottle := 1,
    antiGravityMode := antiGravityMode_e.ANTI_GRAVITY_SMOOTH.val,
    itermThrottleThreshold := 250, itermAcceleratorGain := 65535 }

/-- A runtime state with stabilisation on and anti-gravity idle. -/
def runtimeIdle : pidRuntime_t :=
  { pidStabilisationEnabled := true, antiGravityEnabled := false,
    antiGravityMode := antiGravityMode_e.ANTI_GRAVITY_SMOOTH.val,
    antiGravityThrottleHpf := 0, itermAccelerator := 0, itermAcceleratorGain := 5000 }

/-- Stage modules used to exercise the tick on concrete numbers: `P` is the
rate error scaled by `PTERM_SCALE * 30`, `I` a constant, `D` and `F` zero. -/
def sampleStages : StageModules :=
  { pTerm := fun _ _ inp axis => PTERM_SCALE * 30 * (inp.setpoint axis - inp.gyro axis),
    iTerm := fun _ _ _ _ => 1000,
    dTerm := fun _ _ _ _ => 0,
    fTerm := fun _ _ _ _ => 0,
    axisSuppressed := fun _ _ _ _ => false,
    nextRuntime := fun _ rt _ => rt }

/-- A tick input: 200 deg/s commanded on every axis, gyro at rest. -/
def sampleInput : TickInput :=
  { setpoint := fun _ => 200, gyro := fun _ => 0 }

/-- A profile that the configuration layer accepts: the header's default sum
limits and an anti-gravity gain of 5000. -/
def profileAccepted : pidProfile_t :=
  { pidSumLimit := PIDSUM_LIMIT, pidSumLimitYaw := PIDSUM_LIMIT_YAW, pidAtMinThrottle := 1,
    antiGravityMode := antiGravityMode_e.ANTI_GRAVITY_STEP.val,
    itermThrottleThreshold := 250, itermAcceleratorGain := 5000 }

/-- A runtime state before coefficient derivation, with values out of every
range. -/
def runtimeUninitialised : pidRuntime_t :=
  { pidStabilisationEnabled := true, antiGravityEnabled := true,
    antiGravityMode := 7, antiGravityThrottleHpf := 0, itermAccelerator := -123456,
    itermAcceleratorGain := 70000 }

/-- Stage modules whose anti-gravity stage arrives at a gain that grows with the
high-passed throttle without bound (a million per unit of throttle). -/
def surgeStages : StageModules :=
  { sampleStages with
      nextRuntime := fun _ rt _ =>
        { rt with itermAccelerator := 1000000 * |rt.antiGravityThrottleHpf| } }

/-- A throttle step from 0.1 to 0.9 seen through a first-difference filter,
then a tick, an override far above the maximum, an override below zero and
another tick. -/
def sampleOps : List PidOp :=
  [.updateAntiGravityThrottleFilter (fun _ throttle => throttle - 1 / 10) (9 / 10),
   .tick surgeStages sampleInput,
   .setItermAccelerator 99999,
   .setAntiGravityState false,
   .setItermAccelerator (-1),
   .tick surgeStages sampleInput]

/-- The gain set of the spec's scenario: `P = 30`, with `I`, `D`, `F` as sample
values. -/
def sampleGains : pidf_t := { P := 30, I := 85, D := 35, F := 90 }

/-! ## `dynLpfCutoffFreq` (pid.h line 411)

Only the prototype is in the header.  The spec states two properties of the
function and no formula; they are recorded here as predicates on an arbitrary
function of the prototype's shape (throttle as an exact rational, the
`uint16_t`/`uint8_t` parameters as naturals within their range). -/

/-- The shape of `float dynLpfCutoffFreq(float throttle, uint16_t dynLpfMin,
uint16_t dynLpfMax, uint8_t expo)`. -/
abbrev DynLpfCutoffFreq : Type := ℚ → Nat → Nat → Nat → ℚ

/-- Modelled from the spec: §8, the function "returns exactly `min` at
throttle=0 and `max` at throttle=1". -/
def DynLpfEndpoints (f : DynLpfCutoffFreq) : Prop :=
  ∀ dynLpfMin dynLpfMax expo : Nat, dynLpfMin < 2 ^ 16 → dynLpfMax < 2 ^ 16 → expo < 2 ^ 8 →
    f 0 dynLpfMin dynLpfMax expo = dynLpfMin ∧ f 1 dynLpfMin dynLpfMax expo = dynLpfMax

/-- Modelled from the spec: §4.4, the function "must be monotonic in throttle
for expo ≥ 0", read for every `dynLpfMin`, `dynLpfMax` and throttles
`0 ≤ t1 ≤ t2 ≤ 1`. -/
def DynLpfMonotone (f : DynLpfCutoffFreq) : Prop :=
  ∀ dynLpfMin dynLpfMax expo : Nat, dynLpfMin < 2 ^ 16 → dynLpfMax < 2 ^ 16 → expo < 2 ^ 8 →
    ∀ t1 t2 : ℚ, 0 ≤ t1 → t1 ≤ t2 → t2 ≤ 1 →
      f t1 dynLpfMin dynLpfMax expo ≤ f t2 dynLpfMin dynLpfMax expo

/-- Straight-line interpolation between the two cutoffs, a function of the
prototype's shape that meets `DynLpfEndpoints`. -/
def dynLpfLinear : DynLpfCutoffFreq :=
  fun throttle dynLpfMin dynLpfMax _ =>
    (dynLpfMin : ℚ) + ((dynLpfMax : ℚ) - (dynLpfMin : ℚ)) * throttle

/-! ## Lemmas on the modelled operations -/

theorem clip_le_hi (x lo hi : ℚ) (h : lo ≤ hi) : clip x lo hi ≤ hi := by
  unfold clip
  split_ifs with h1 h2
  · exact h
  · exact le_refl hi
  · exact not_lt.mp h2

theorem lo_le_clip (x lo hi : ℚ) (h : lo ≤ hi) : lo ≤ clip x lo hi := by
  unfold clip
  split_ifs with h1 h2
  · exact le_refl lo
  · exact h
  · exact not_lt.mp h1

theorem abs_clip_le (x limit : ℚ) (h : 0 ≤ limit) : |clip x (-limit) limit| ≤ limit := by
  have hle : -limit ≤ limit := by linarith
  exact abs_le.mpr ⟨lo_le_clip x (-limit) limit hle, clip_le_hi x (-limit) limit hle⟩

theorem axisSumLimit_nonneg (pidProfile : pidProfile_t) (axis : Fin PID_DATA_LEN) :
    0 ≤ axisSumLimit pidProfile axis := by
  unfold axisSumLimit
  split_ifs <;> exact Nat.cast_nonneg _

theorem abs_pidAxis_sum_le (m : StageModules) (pidProfile : pidProfile_t) (rt : pidRuntime_t)
    (inp : TickInput) (axis : Fin PID_DATA_LEN) :
    |(pidAxis m pidProfile rt inp axis).Sum| ≤ axisSumLimit pidProfile axis := by
  have h0 := axisSumLimit_nonneg pidProfile axis
  unfold pidAxis
  by_cases hs : rt.pidStabilisationEnabled = true
  · by_cases hx : m.axisSuppressed pidProfile rt inp axis = true
    · simpa [hs, hx] using h0
    · simpa [hs, hx] using abs_clip_le _ _ h0
  · simpa [hs] using h0

theorem pidStabilisationState_off (rt : pidRuntime_t) :
    (pidStabilisationState rt .PID_STABILISATION_OFF).pidStabilisationEnabled = false := by
  simp [pidStabilisationState]

/-- The endpoint property can be met: straight-line interpolation meets it. -/
theorem dynLpfLinear_endpoints : DynLpfEndpoints dynLpfLinear := by
  intro mn mx e _ _ _
  constructor <;> simp [dynLpfLinear]

/-- No function of the prototype's shape has both the endpoint property and
monotonicity for every pair of cutoffs: with `dynLpfMin = 1`, `dynLpfMax = 0`
the endpoints give `f 0 = 1 > 0 = f 1`. -/
theorem dynLpf_endpoints_exclude_monotone :
    ¬ ∃ f : DynLpfCutoffFreq, DynLpfEndpoints f ∧ DynLpfMonotone f := by
  rintro ⟨f, hE, hM⟩
  have h := hE 1 0 0 (by norm_num) (by norm_num) (by norm_num)
  have hm := hM 1 0 0 (by norm_num) (by norm_num) (by norm_num) 0 1 (le_refl 0)
    zero_le_one (le_refl 1)
  rw [h.1, h.2] at hm
  norm_num at hm

theorem antiGravityGain_bounded (rawGain : ℚ) :
    (ITERM_ACCELERATOR_GAIN_OFF : ℚ) ≤ antiGravityGain rawGain ∧
    antiGravityGain rawGain ≤ (ITERM_ACCELERATOR_GAIN_MAX : ℚ) := by
  have hle : (ITERM_ACCELERATOR_GAIN_OFF : ℚ) ≤ (ITERM_ACCELERATOR_GAIN_MAX : ℚ) := by
    norm_num [ITERM_ACCELERATOR_GAIN_OFF, ITERM_ACCELERATOR_GAIN_MAX]
  exact ⟨lo_le_clip _ _ _ hle, clip_le_hi _ _ _ hle⟩

theorem PidOp.apply_itermAcceleratorGain (pidProfile : pidProfile_t) (rt : pidRuntime_t)
    (op : PidOp) : (op.apply pidProfile rt).itermAcceleratorGain = rt.itermAcceleratorGain := by
  cases op <;> rfl

theorem PidOp.apply_itermAccelerator_bounded (pidProfile : pidProfile_t) (rt : pidRuntime_t)
    (op : PidOp)
    (h : (ITERM_ACCELERATOR_GAIN_OFF : ℚ) ≤ rt.itermAccelerator ∧
      rt.itermAccelerator ≤ (ITERM_ACCELERATOR_GAIN_MAX : ℚ)) :
    (ITERM_ACCELERATOR_GAIN_OFF : ℚ) ≤ (op.apply pidProfile rt).itermAccelerator ∧
    (op.apply pidProfile rt).itermAccelerator ≤ (ITERM_ACCELERATOR_GAIN_MAX : ℚ) := by
  cases op with
  | tick m inp => exact antiGravityGain_bounded _
  | setItermAccelerator v => exact antiGravityGain_bounded _
  | updateAntiGravityThrottleFilter hpf throttle => exact h
  | setAntiGravityState b => exact h
  | stabilisationState st => exact h

theorem runOps_gain_invariant (pidProfile : pidProfile_t) (ops : List PidOp) :
    ∀ rt : pidRuntime_t,
      ((ITERM_ACCELERATOR_GAIN_OFF : ℚ) ≤ rt.itermAccelerator ∧
        rt.itermAccelerator ≤ (ITERM_ACCELERATOR_GAIN_MAX : ℚ)) →
      ((ITERM_ACCELERATOR_GAIN_OFF : ℚ) ≤ (runOps pidProfile rt ops).itermAccelerator ∧
        (runOps pidProfile rt ops).itermAccelerator ≤ (ITERM_ACCELERATOR_GAIN_MAX : ℚ)) ∧
      (runOps pidProfile rt ops).itermAcceleratorGain = rt.itermAcceleratorGain := by
  induction ops with
  | nil => intro rt h; exact ⟨h, rfl⟩
  | cons op rest ih =>
    intro rt h
    have hstep := ih (op.apply pidProfile rt) (PidOp.apply_itermAccelerator_bounded _ _ _ h)
    have hgain := PidOp.apply_itermAcceleratorGain pidProfile rt op
    simp only [runOps, List.foldl_cons] at hstep ⊢
    exact ⟨hstep.1, hstep.2.trans hgain⟩

/-! ## Claims -/

/-- C1: after one tick of `pidController`, for every stage-module behaviour,
profile, runtime state and setpoint/gyro input, the roll and pitch sums are
bounded in magnitude by `pidSumLimit` and the yaw sum by `pidSumLimitYaw`. -/
theorem pidController_sum_within_limit (m : StageModules) (pidProfile : pidProfile_t)
    (rt : pidRuntime_t) (inp : TickInput) :
    |((pidController m pidProfile rt inp).2 rollAxis).Sum| ≤ (pidProfile.pidSumLimit : ℚ) ∧
    |((pidController m pidProfile rt inp).2 pitchAxis).Sum| ≤ (pidProfile.pidSumLimit : ℚ) ∧
    |((pidController m pidProfile rt inp).2 yawAxis).Sum| ≤ (pidProfile.pidSumLimitYaw : ℚ) := by
  refine ⟨?_, ?_, ?_⟩
  · have h := abs_pidAxis_sum_le m pidProfile rt inp rollAxis
    simpa [pidController, axisSumLimit, rollAxis, pidIndex_e.val] using h
  · have h := abs_pidAxis_sum_le m pidProfile rt inp pitchAxis
    simpa [pidController, axisSumLimit, pitchAxis, pidIndex_e.val] using h
  · have h := abs_pidAxis_sum_le m pidProfile rt inp yawAxis
    simpa [pidController, axisSumLimit, yawAxis, pidIndex_e.val] using h

/-- C2: when the stabilisation flag is off (`pidStabilisationEnabled` false, as
left by `pidStabilisationState(PID_STABILISATION_OFF)`), one tick of
`pidController` leaves `P = I = D = F = Sum = 0` on every axis, whatever the
setpoint and gyro inputs. -/
theorem pidController_stabilisation_off_zero (m : StageModules) (pidProfile : pidProfile_t)
    (rt : pidRuntime_t) (inp : TickInput) (h : rt.pidStabilisationEnabled = false)
    (axis : Fin PID_DATA_LEN) :
    ((pidController m pidProfile rt inp).2 axis).P = 0 ∧
    ((pidController m pidProfile rt inp).2 axis).I = 0 ∧
    ((pidController m pidProfile rt inp).2 axis).D = 0 ∧
    ((pidController m pidProfile rt inp).2 axis).F = 0 ∧
    ((pidController m pidProfile rt inp).2 axis).Sum = 0 := by
  simp [pidController, pidAxis, h]

/-- Witness of C2: the tick after `pidStabilisationState(PID_STABILISATION_OFF)`
on the sample stages, 200 deg/s commanded, yaw axis. -/
theorem pidController_stabilisation_off_zero_witness :
    (pidStabilisationState runtimeIdle .PID_STABILISATION_OFF).pidStabilisationEnabled = false ∧
    ((pidController sampleStages profileGainUint16Max
        (pidStabilisationState runtimeIdle .PID_STABILISATION_OFF) sampleInput).2 yawAxis).P = 0 ∧
    ((pidController sampleStages profileGainUint16Max
        (pidStabilisationState runtimeIdle .PID_STABILISATION_OFF) sampleInput).2 yawAxis).I = 0 ∧
    ((pidController sampleStages profileGainUint16Max
        (pidStabilisationState runtimeIdle .PID_STABILISATION_OFF) sampleInput).2 yawAxis).D = 0 ∧
    ((pidController sampleStages profileGainUint16Max
        (pidStabilisationState runtimeIdle .PID_STABILISATION_OFF) sampleInput).2 yawAxis).F = 0 ∧
    ((pidController sampleStages profileGainUint16Max
        (pidStabilisationState runtimeIdle .PID_STABILISATION_OFF) sampleInput).2 yawAxis).Sum = 0 :=
  ⟨pidStabilisationState_off runtimeIdle,
   pidController_stabilisation_off_zero sampleStages profileGainUint16Max
     (pidStabilisationState runtimeIdle .PID_STABILISATION_OFF) sampleInput
     (pidStabilisationState_off runtimeIdle) yawAxis⟩

/-- C6: `pidf_t` has the members `P`, `I`, `D` (8-bit unsigned) and `F` (16-bit
unsigned); `pidProfile_t.pid` is an array of `PID_ITEM_COUNT` of them; every
scalar component of every member of `pidProfile_t` is `uint8_t` or `uint16_t`,
except the `int8_t` of `auto_profile_cell_count` and the `char` text of
`profileName`; `auto_profile_cell_count` is the only member with a signed
component and `profileName` the only one that is not an integer; the ranges
are 0..255, 0..65535 and -128..127. -/
theorem pidProfile_member_widths :
    pidf_s.map (fun m => (m.name, m.type.bits, m.type.isSigned))
      = [("P", some 8, false), ("I", some 8, false), ("D", some 8, false),
         ("F", some 16, false)] ∧
    (pidProfile_s.find? (fun m => m.name == "pid")).map Member.type
      = some (.array .pidf_t 6) ∧
    (∀ m ∈ pidProfile_s, ∀ t ∈ m.type.leaves,
      t = .uint8_t ∨ t = .uint16_t ∨
      (t = .int8_t ∧ m = Member.mk "auto_profile_cell_count" .int8_t) ∨
      (t = .char ∧ m.name = "profileName")) ∧
    membersWith pidProfile_s CType.isSigned = ["auto_profile_cell_count"] ∧
    membersWith pidProfile_s (fun t => !t.isInteger) = ["profileName"] ∧
    (CType.uint8_t.isSigned = false ∧ CType.uint8_t.bits = some 8 ∧
      CType.uint8_t.minValue = some 0 ∧ CType.uint8_t.maxValue = some 255) ∧
    (CType.uint16_t.isSigned = false ∧ CType.uint16_t.bits = some 16 ∧
      CType.uint16_t.minValue = some 0 ∧ CType.uint16_t.maxValue = some 65535) ∧
    (CType.int8_t.isSigned = true ∧ CType.int8_t.bits = some 8 ∧
      CType.int8_t.minValue = some (-128) ∧ CType.int8_t.maxValue = some 127) := by
  refine ⟨by decide, by decide, by decide, by decide, by decide, by decide, by decide,
    by decide⟩

/-- C7: coefficient derivation uses four fixed scale constants, one per gain:
for every profile and axis, `Kp = PTERM_SCALE * P`, `Ki = ITERM_SCALE * I`,
`Kd = DTERM_SCALE * D` and `Kf = FEEDFORWARD_SCALE * F` of that axis' slot (unit
gains give back the four constants, and `P = 30` gives `Kp = 0.032029 * 30`);
the constants are `0.032029`, `0.244381`, `0.000529` and `0.013754`, pairwise
distinct as exact rationals. -/
theorem coefficientDerivation_scale_constants
    (pid : Fin pidIndex_e.PID_ITEM_COUNT.val → pidf_t) (axis : Fin XYZ_AXIS_COUNT) :
    ((coefficientDerivation pid axis).Kp = PTERM_SCALE * ((pid (axisSlot axis)).P : ℚ) ∧
      (coefficientDerivation pid axis).Ki = ITERM_SCALE * ((pid (axisSlot axis)).I : ℚ) ∧
      (coefficientDerivation pid axis).Kd = DTERM_SCALE * ((pid (axisSlot axis)).D : ℚ) ∧
      (coefficientDerivation pid axis).Kf
        = FEEDFORWARD_SCALE * ((pid (axisSlot axis)).F : ℚ)) ∧
    (axisSlot axis).val = axis.val ∧
    pidCoefficientOf { P := 1, I := 1, D := 1, F := 1 }
      = { Kp := PTERM_SCALE, Ki := ITERM_SCALE, Kd := DTERM_SCALE, Kf := FEEDFORWARD_SCALE } ∧
    (pidCoefficientOf sampleGains).Kp = 0.032029 * 30 ∧
    (PTERM_SCALE = 32029 / 1000000 ∧ ITERM_SCALE = 244381 / 1000000 ∧
      DTERM_SCALE = 529 / 1000000 ∧ FEEDFORWARD_SCALE = 13754 / 1000000) ∧
    (PTERM_SCALE ≠ ITERM_SCALE ∧ PTERM_SCALE ≠ DTERM_SCALE ∧
      PTERM_SCALE ≠ FEEDFORWARD_SCALE ∧ ITERM_SCALE ≠ DTERM_SCALE ∧
      ITERM_SCALE ≠ FEEDFORWARD_SCALE ∧ DTERM_SCALE ≠ FEEDFORWARD_SCALE) := by
  refine ⟨⟨rfl, rfl, rfl, rfl⟩, rfl, ?_, ?_, ⟨?_, ?_, ?_, ?_⟩, ⟨?_, ?_, ?_, ?_, ?_, ?_⟩⟩
  · simp [pidCoefficientOf]
  · norm_num [pidCoefficientOf, sampleGains, PTERM_SCALE]
  all_goals norm_num [PTERM_SCALE, ITERM_SCALE, DTERM_SCALE, FEEDFORWARD_SCALE]

/-- C8: the header's sum limits satisfy
`PIDSUM_LIMIT_MIN <= PIDSUM_LIMIT_YAW < PIDSUM_LIMIT <= PIDSUM_LIMIT_MAX`,
that is `100 <= 400 < 500 <= 1000`. -/
theorem pidsum_limit_order :
    PIDSUM_LIMIT_MIN ≤ PIDSUM_LIMIT_YAW ∧ PIDSUM_LIMIT_YAW < PIDSUM_LIMIT ∧
    PIDSUM_LIMIT ≤ PIDSUM_LIMIT_MAX ∧
    PIDSUM_LIMIT_MIN = 100 ∧ PIDSUM_LIMIT_YAW = 400 ∧ PIDSUM_LIMIT = 500 ∧
    PIDSUM_LIMIT_MAX = 1000 := by
  decide

/-- C9 as stated fails: `ITERM_RELAX_TYPE_COUNT` is 2, not 3, and only two
trigger types are selectable. -/
theorem itermRelaxType_count_not_three :
    ¬ (itermRelaxType_e.ITERM_RELAX_TYPE_COUNT.val = 3) ∧
    ¬ (itermRelaxType_e.selectable.length = 3) := by
  decide

/-- C9 (amended): the trigger-type enumeration `itermRelaxType_e` has exactly
two selectable values, `ITERM_RELAX_GYRO = 0` and `ITERM_RELAX_SETPOINT = 1`,
so `ITERM_RELAX_TYPE_COUNT = 2` and there is no value for "both"; the mode
enumeration `itermRelax_e` has the selectable values `ITERM_RELAX_OFF`,
`ITERM_RELAX_RP`, `ITERM_RELAX_RPY`, `ITERM_RELAX_RP_INC`,
`ITERM_RELAX_RPY_INC` (0 to 4, `ITERM_RELAX_COUNT = 5`), which keeps
`RP`/`RPY` apart from the incremental `RP_INC`/`RPY_INC`. -/
theorem itermRelax_enumerations :
    itermRelaxType_e.selectable
      = [.ITERM_RELAX_GYRO, .ITERM_RELAX_SETPOINT] ∧
    itermRelaxType_e.selectable.map itermRelaxType_e.val = [0, 1] ∧
    itermRelaxType_e.ITERM_RELAX_TYPE_COUNT.val = 2 ∧
    (∀ t : itermRelaxType_e, t.val ≤ itermRelaxType_e.ITERM_RELAX_TYPE_COUNT.val) ∧
    itermRelax_e.selectable
      = [.ITERM_RELAX_OFF, .ITERM_RELAX_RP, .ITERM_RELAX_RPY, .ITERM_RELAX_RP_INC,
         .ITERM_RELAX_RPY_INC] ∧
    itermRelax_e.selectable.map itermRelax_e.val = [0, 1, 2, 3, 4] ∧
    itermRelax_e.ITERM_RELAX_COUNT.val = 5 ∧
    (∀ a ∈ [itermRelax_e.ITERM_RELAX_RP, itermRelax_e.ITERM_RELAX_RPY],
      ∀ b ∈ [itermRelax_e.ITERM_RELAX_RP_INC, itermRelax_e.ITERM_RELAX_RPY_INC],
        a.val ≠ b.val) := by
  refine ⟨by decide, by decide, by decide, ?_, by decide, by decide, by decide, by decide⟩
  intro t
  cases t <;> decide

/-- C10: every `pidIndex_e` value other than the sentinel (`PID_ROLL = 0` to
`PID_MAG = 5`) is below `PID_ITEM_COUNT = 6`, the length of `pidProfile_t.pid`;
`PID_ROLL`, `PID_PITCH`, `PID_YAW` are 0, 1, 2 and are valid indices of
`pidData[3]`; `PID_LEVEL_LOW`, `PID_LEVEL_HIGH`, `PID_MAG` are 3, 4, 5 and are
not. -/
theorem pidIndex_bounds :
    (∀ i : pidIndex_e, i = .PID_ITEM_COUNT ∨
      i.val < pidIndex_e.PID_ITEM_COUNT.val) ∧
    pidIndex_e.PID_ITEM_COUNT.val = 6 ∧
    arrayLength pidProfile_s "pid" = some pidIndex_e.PID_ITEM_COUNT.val ∧
    [pidIndex_e.PID_ROLL, .PID_PITCH, .PID_YAW, .PID_LEVEL_LOW, .PID_LEVEL_HIGH,
      .PID_MAG].map pidIndex_e.val = [0, 1, 2, 3, 4, 5] ∧
    (pidIndex_e.PID_ROLL.val < PID_DATA_LEN ∧ pidIndex_e.PID_PITCH.val < PID_DATA_LEN ∧
      pidIndex_e.PID_YAW.val < PID_DATA_LEN) ∧
    (¬ pidIndex_e.PID_LEVEL_LOW.val < PID_DATA_LEN ∧
      ¬ pidIndex_e.PID_LEVEL_HIGH.val < PID_DATA_LEN ∧
      ¬ pidIndex_e.PID_MAG.val < PID_DATA_LEN) ∧
    (∀ i : pidIndex_e, i.val < PID_DATA_LEN ↔
      (i = .PID_ROLL ∨ i = .PID_PITCH ∨ i = .PID_YAW)) := by
  refine ⟨?_, by decide, by decide, by decide, by decide, by decide, ?_⟩
  · intro i
    cases i <;> decide
  · intro i
    cases i <;> decide

end Pid
